import Mathlib

/-!
Verification of the bonding-curve pricing engine of the token-launch front end.

The engine is a set of pure functions over a constant configuration record
(`BONDING_CURVE_CONFIG`) computing spot price, curve progress, buy/sell
conversions and market cap from a token's circulating supply.  The source
computes with JavaScript numbers; we embed the arithmetic over `ℚ`, which is
exact for every value the functions manipulate (all constants are decimal
literals).  The trade panel's input-linking handlers are embedded as the
numeric conversions they perform on an entered amount, with `toFixed(6)`
modelled as rounding to six decimal places.
-/

/-- Configuration record mirroring the source's `BONDING_CURVE_CONFIG` object. -/
structure BondingCurveConfigT where
  INITIAL_PRICE : ℚ
  MAX_SUPPLY : ℚ
  BONDING_CURVE_PERCENT : ℚ
  PRICE_STEP_SIZE : ℚ
  CREATOR_MAX_BUY_PERCENT : ℚ
  FEE_PERCENT : ℚ

/-- Bonding curve calculation constants matching the smart contract.
`0.0001533 = 1533 / 10000000`. -/
def BONDING_CURVE_CONFIG : BondingCurveConfigT where
  INITIAL_PRICE := 1533 / 10000000
  MAX_SUPPLY := 1000000000
  BONDING_CURVE_PERCENT := 70
  PRICE_STEP_SIZE := 100000000
  CREATOR_MAX_BUY_PERCENT := 20
  FEE_PERCENT := 1

/-- `calculateBondingCurvePrice`: quadratic bonding curve price at a supply.
Clamps the supply to the bonding-curve allocation, returns the initial price
at zero effective supply, otherwise `INITIAL_PRICE * (1 + r * r)` where
`r = effectiveSupply / PRICE_STEP_SIZE`. -/
def calculateBondingCurvePrice (currentSupply : ℚ) : ℚ :=
  let bondingMax :=
    BONDING_CURVE_CONFIG.MAX_SUPPLY * BONDING_CURVE_CONFIG.BONDING_CURVE_PERCENT / 100
  let effectiveSupply := min currentSupply bondingMax
  if effectiveSupply = 0 then
    BONDING_CURVE_CONFIG.INITIAL_PRICE
  else
    let r := effectiveSupply / BONDING_CURVE_CONFIG.PRICE_STEP_SIZE
    BONDING_CURVE_CONFIG.INITIAL_PRICE * (1 + r * r)

/-- `calculateBondingCurveProgress`: percentage (clamped to 100) of the
bonding-curve allocation filled by the current supply. -/
def calculateBondingCurveProgress (currentSupply : ℚ) : ℚ :=
  let bondingCurveLimit :=
    BONDING_CURVE_CONFIG.MAX_SUPPLY * BONDING_CURVE_CONFIG.BONDING_CURVE_PERCENT / 100
  min (currentSupply / bondingCurveLimit * 100) 100

/-- `calculateTokensFromTrust`: tokens purchasable with a given amount of
TRUST at the current spot price. -/
def calculateTokensFromTrust (trustAmount currentSupply : ℚ) : ℚ :=
  let currentPrice := calculateBondingCurvePrice currentSupply
  trustAmount / currentPrice

/-- `calculateTrustFromTokens`: TRUST needed to buy a given token amount at
the current spot price. -/
def calculateTrustFromTokens (tokenAmount currentSupply : ℚ) : ℚ :=
  let currentPrice := calculateBondingCurvePrice currentSupply
  tokenAmount * currentPrice

/-- `calculateTrustFromSell`: TRUST received when selling, after the fee. -/
def calculateTrustFromSell (tokenAmount currentSupply : ℚ) : ℚ :=
  let currentPrice := calculateBondingCurvePrice currentSupply
  let grossTrust := tokenAmount * currentPrice
  let fee := grossTrust * BONDING_CURVE_CONFIG.FEE_PERCENT / 100
  grossTrust - fee

/-- `calculateMarketCap`: current price times the bonding-curve allocation. -/
def calculateMarketCap (currentSupply : ℚ) : ℚ :=
  let currentPrice := calculateBondingCurvePrice currentSupply
  let circulatingSupply :=
    BONDING_CURVE_CONFIG.MAX_SUPPLY * BONDING_CURVE_CONFIG.BONDING_CURVE_PERCENT / 100
  currentPrice * circulatingSupply

/-- The bonding-curve allocation, `maxSupply * bondingCurvePercent / 100`. -/
def bondingCurveAllocation : ℚ :=
  BONDING_CURVE_CONFIG.MAX_SUPPLY * BONDING_CURVE_CONFIG.BONDING_CURVE_PERCENT / 100

/-- The literal fallback price `0.0001533` hardcoded in the trade panel's
`handleAmountChange` / `handleTrustChange` handlers. -/
def tradePanelFallbackPrice : ℚ := 1533 / 10000000

/-- Model of JavaScript `toFixed(6)`: round to six decimal places. -/
def toFixed6 (x : ℚ) : ℚ := round (x * 1000000) / 1000000

/-- The price the trade panel handlers actually use:
`token.currentPrice || 0.0001533`, i.e. the fallback when the field is absent
(`none`) or zero (JavaScript falsiness of `0`). -/
def effectiveTradePrice (currentPrice : Option ℚ) : ℚ :=
  match currentPrice with
  | none => tradePanelFallbackPrice
  | some p => if p = 0 then tradePanelFallbackPrice else p

/-- Numeric core of the trade panel's `handleAmountChange`: the TRUST amount
it derives (and formats with `toFixed(6)`) from an entered token amount. -/
def handleAmountChange (currentPrice : Option ℚ) (amount : ℚ) : ℚ :=
  toFixed6 (amount * effectiveTradePrice currentPrice)

/-- Numeric core of the trade panel's `handleTrustChange`: the token amount
it derives (and formats with `toFixed(6)`) from an entered TRUST amount. -/
def handleTrustChange (currentPrice : Option ℚ) (trustAmount : ℚ) : ℚ :=
  toFixed6 (trustAmount / effectiveTradePrice currentPrice)

/-- Closed form of `calculateBondingCurvePrice` with the configuration
constants evaluated. -/
theorem price_closed_form (s : ℚ) :
    calculateBondingCurvePrice s =
      if min s 700000000 = 0 then 1533 / 10000000
      else 1533 / 10000000 *
        (1 + min s 700000000 / 100000000 * (min s 700000000 / 100000000)) := by
  simp only [calculateBondingCurvePrice, BONDING_CURVE_CONFIG]
  norm_num

/-- The spot price is strictly positive at every supply. -/
theorem calculateBondingCurvePrice_pos (s : ℚ) : 0 < calculateBondingCurvePrice s := by
  rw [price_closed_form]
  split_ifs with h
  · norm_num
  · nlinarith [mul_self_nonneg (min s 700000000 / 100000000)]

/-- Claim C1: for every supply `s`, `calculateMarketCap s` equals
`calculateBondingCurvePrice s` times the bonding-curve allocation
`maxSupply * bondingCurvePercent / 100` (which is `700000000`), not times
`s` itself; in particular `calculateMarketCap 0` equals the initial price
times the allocation. -/
theorem calculateMarketCap_spec (s : ℚ) :
    calculateMarketCap s = calculateBondingCurvePrice s *
      (BONDING_CURVE_CONFIG.MAX_SUPPLY * BONDING_CURVE_CONFIG.BONDING_CURVE_PERCENT / 100) ∧
    BONDING_CURVE_CONFIG.MAX_SUPPLY * BONDING_CURVE_CONFIG.BONDING_CURVE_PERCENT / 100
      = 700000000 ∧
    calculateMarketCap 0 = BONDING_CURVE_CONFIG.INITIAL_PRICE *
      (BONDING_CURVE_CONFIG.MAX_SUPPLY * BONDING_CURVE_CONFIG.BONDING_CURVE_PERCENT / 100) := by
  refine ⟨rfl, by norm_num [BONDING_CURVE_CONFIG], ?_⟩
  norm_num [calculateMarketCap, calculateBondingCurvePrice, BONDING_CURVE_CONFIG]

/-- Claim C2: `calculateBondingCurvePrice` computes
`effectiveSupply = min supply (maxSupply * bondingCurvePercent / 100)`,
returns the initial price when the effective supply is exactly `0`, and
otherwise returns `INITIAL_PRICE * (1 + (effectiveSupply / PRICE_STEP_SIZE)^2)`. -/
theorem calculateBondingCurvePrice_def_spec (s : ℚ) :
    calculateBondingCurvePrice s =
      if min s (BONDING_CURVE_CONFIG.MAX_SUPPLY * BONDING_CURVE_CONFIG.BONDING_CURVE_PERCENT / 100) = 0
      then BONDING_CURVE_CONFIG.INITIAL_PRICE
      else BONDING_CURVE_CONFIG.INITIAL_PRICE *
        (1 + (min s (BONDING_CURVE_CONFIG.MAX_SUPPLY * BONDING_CURVE_CONFIG.BONDING_CURVE_PERCENT / 100)
          / BONDING_CURVE_CONFIG.PRICE_STEP_SIZE) ^ 2) := by
  simp only [calculateBondingCurvePrice]
  split_ifs
  · rfl
  · ring

/-- Claim C3: the price is monotonically non-decreasing in supply — for all
`0 ≤ s1 < s2 ≤ bondingCurveAllocation`,
`calculateBondingCurvePrice s1 ≤ calculateBondingCurvePrice s2`. -/
theorem calculateBondingCurvePrice_mono (s1 s2 : ℚ) (h0 : 0 ≤ s1) (h12 : s1 < s2)
    (h2 : s2 ≤ bondingCurveAllocation) :
    calculateBondingCurvePrice s1 ≤ calculateBondingCurvePrice s2 := by
  have hA : bondingCurveAllocation = 700000000 := by
    norm_num [bondingCurveAllocation, BONDING_CURVE_CONFIG]
  rw [hA] at h2
  have h1A : s1 ≤ 700000000 := le_trans h12.le h2
  rw [price_closed_form, price_closed_form, min_eq_left h1A, min_eq_left h2]
  split_ifs with e1 e2 e2
  · exact le_refl _
  · nlinarith [mul_self_nonneg (s2 / 100000000)]
  · exfalso
    have : 0 < s2 := lt_of_le_of_lt h0 h12
    exact absurd e2 (by positivity)
  · nlinarith [mul_self_le_mul_self h0 h12.le]

/-- Witness for claim C3 at `s1 = 0`, `s2 = 100000000`. -/
theorem calculateBondingCurvePrice_mono_witness :
    (0:ℚ) ≤ 0 ∧ (0:ℚ) < 100000000 ∧ (100000000:ℚ) ≤ bondingCurveAllocation ∧
    calculateBondingCurvePrice 0 ≤ calculateBondingCurvePrice 100000000 :=
  ⟨le_refl 0, by norm_num, by norm_num [bondingCurveAllocation, BONDING_CURVE_CONFIG],
    calculateBondingCurvePrice_mono 0 100000000 (le_refl 0) (by norm_num)
      (by norm_num [bondingCurveAllocation, BONDING_CURVE_CONFIG])⟩

/-- Claim C4: for every supply `≥ 0` the price is at least the initial price,
and it is bounded (the clamp caps it at `INITIAL_PRICE * (1 + 7^2) =
INITIAL_PRICE * 50`), the embedding's rendering of finiteness. -/
theorem calculateBondingCurvePrice_floor (s : ℚ) (hs : 0 ≤ s) :
    BONDING_CURVE_CONFIG.INITIAL_PRICE ≤ calculateBondingCurvePrice s ∧
    calculateBondingCurvePrice s ≤ BONDING_CURVE_CONFIG.INITIAL_PRICE * 50 := by
  have hub : min s 700000000 ≤ 700000000 := min_le_right _ _
  have hlb : (0:ℚ) ≤ min s 700000000 := le_min hs (by norm_num)
  rw [price_closed_form]
  show (1533 / 10000000 : ℚ) ≤ _ ∧ _ ≤ (1533 / 10000000 : ℚ) * 50
  constructor <;> split_ifs with h
  · exact le_refl _
  · nlinarith [mul_self_nonneg (min s 700000000 / 100000000)]
  · norm_num
  · nlinarith [mul_self_le_mul_self hlb hub]

/-- Witness for claim C4 at `s = 42`. -/
theorem calculateBondingCurvePrice_floor_witness :
    (0:ℚ) ≤ 42 ∧
    (BONDING_CURVE_CONFIG.INITIAL_PRICE ≤ calculateBondingCurvePrice 42 ∧
      calculateBondingCurvePrice 42 ≤ BONDING_CURVE_CONFIG.INITIAL_PRICE * 50) :=
  ⟨by norm_num, calculateBondingCurvePrice_floor 42 (by norm_num)⟩

/-- Claim C5: for every supply strictly above the bonding-curve allocation,
the price equals the price at the full allocation. -/
theorem calculateBondingCurvePrice_clamp (s : ℚ) (hs : bondingCurveAllocation < s) :
    calculateBondingCurvePrice s = calculateBondingCurvePrice bondingCurveAllocation := by
  have hA : bondingCurveAllocation = 700000000 := by
    norm_num [bondingCurveAllocation, BONDING_CURVE_CONFIG]
  rw [hA] at hs ⊢
  rw [price_closed_form, price_closed_form, min_eq_right hs.le, min_self]

/-- Witness for claim C5 at `s = 800000000`. -/
theorem calculateBondingCurvePrice_clamp_witness :
    bondingCurveAllocation < 800000000 ∧
    calculateBondingCurvePrice 800000000 = calculateBondingCurvePrice bondingCurveAllocation :=
  ⟨by norm_num [bondingCurveAllocation, BONDING_CURVE_CONFIG],
    calculateBondingCurvePrice_clamp 800000000
      (by norm_num [bondingCurveAllocation, BONDING_CURVE_CONFIG])⟩

/-- Claim C6: for every supply `≥ 0` the progress equals
`min (supply / bondingCurveAllocation * 100) 100`, lies in `[0, 100]`,
is `0` at supply `0`, and is exactly `100` at the overshoot supply
`800000000`. -/
theorem calculateBondingCurveProgress_spec (s : ℚ) (hs : 0 ≤ s) :
    calculateBondingCurveProgress s = min (s / bondingCurveAllocation * 100) 100 ∧
    0 ≤ calculateBondingCurveProgress s ∧ calculateBondingCurveProgress s ≤ 100 ∧
    calculateBondingCurveProgress 0 = 0 ∧
    calculateBondingCurveProgress 800000000 = 100 := by
  refine ⟨rfl, ?_, ?_, ?_, ?_⟩
  · simp only [calculateBondingCurveProgress, BONDING_CURVE_CONFIG]
    refine le_min (by positivity) (by norm_num)
  · simp only [calculateBondingCurveProgress]
    exact min_le_right _ _
  · norm_num [calculateBondingCurveProgress, BONDING_CURVE_CONFIG]
  · norm_num [calculateBondingCurveProgress, BONDING_CURVE_CONFIG]

/-- Witness for claim C6 at `s = 350000000`. -/
theorem calculateBondingCurveProgress_spec_witness :
    (0:ℚ) ≤ 350000000 ∧
    (calculateBondingCurveProgress 350000000
        = min ((350000000:ℚ) / bondingCurveAllocation * 100) 100 ∧
      0 ≤ calculateBondingCurveProgress 350000000 ∧
      calculateBondingCurveProgress 350000000 ≤ 100 ∧
      calculateBondingCurveProgress 0 = 0 ∧
      calculateBondingCurveProgress 800000000 = 100) :=
  ⟨by norm_num, calculateBondingCurveProgress_spec 350000000 (by norm_num)⟩

/-- Claim C7: `calculateTrustFromSell t s` equals
`t * price s * (1 - feePercent / 100)` exactly, and for a non-negative token
amount the net proceeds never exceed the gross proceeds `t * price s`. -/
theorem calculateTrustFromSell_spec (t s : ℚ) :
    calculateTrustFromSell t s =
      t * calculateBondingCurvePrice s * (1 - BONDING_CURVE_CONFIG.FEE_PERCENT / 100) ∧
    (0 ≤ t → calculateTrustFromSell t s ≤ t * calculateBondingCurvePrice s) := by
  constructor
  · simp only [calculateTrustFromSell]
    ring
  · intro ht
    simp only [calculateTrustFromSell, BONDING_CURVE_CONFIG]
    have hp := calculateBondingCurvePrice_pos s
    nlinarith [mul_nonneg ht hp.le]

/-- Witness for claim C7 at `t = 1000`, `s = 100000000`. -/
theorem calculateTrustFromSell_spec_witness :
    calculateTrustFromSell 1000 100000000 =
      1000 * calculateBondingCurvePrice 100000000 *
        (1 - BONDING_CURVE_CONFIG.FEE_PERCENT / 100) ∧
    ((0:ℚ) ≤ 1000 ∧ calculateTrustFromSell 1000 100000000
        ≤ 1000 * calculateBondingCurvePrice 100000000) :=
  ⟨(calculateTrustFromSell_spec 1000 100000000).1,
    by norm_num, (calculateTrustFromSell_spec 1000 100000000).2 (by norm_num)⟩

/-- Claim C8: when the trade panel has no usable current price (`none` or
`0`), both conversion handlers use the configured initial price `0.0001533`
in place of the missing price, for every entered amount. -/
theorem tradePanel_fallback_price (cp : Option ℚ) (h : cp = none ∨ cp = some 0) (a t : ℚ) :
    effectiveTradePrice cp = BONDING_CURVE_CONFIG.INITIAL_PRICE ∧
    handleAmountChange cp a = toFixed6 (a * BONDING_CURVE_CONFIG.INITIAL_PRICE) ∧
    handleTrustChange cp t = toFixed6 (t / BONDING_CURVE_CONFIG.INITIAL_PRICE) := by
  have he : effectiveTradePrice cp = BONDING_CURVE_CONFIG.INITIAL_PRICE := by
    rcases h with h | h <;> subst h <;>
      simp [effectiveTradePrice, tradePanelFallbackPrice, BONDING_CURVE_CONFIG]
  exact ⟨he, by rw [handleAmountChange, he], by rw [handleTrustChange, he]⟩

/-- Witness for claim C8 with an absent price and amounts `5` and `7`. -/
theorem tradePanel_fallback_price_witness :
    effectiveTradePrice none = BONDING_CURVE_CONFIG.INITIAL_PRICE ∧
    handleAmountChange none 5 = toFixed6 (5 * BONDING_CURVE_CONFIG.INITIAL_PRICE) ∧
    handleTrustChange none 7 = toFixed6 (7 / BONDING_CURVE_CONFIG.INITIAL_PRICE) :=
  tradePanel_fallback_price none (Or.inl rfl) 5 7

/-- Claim C9: with the configured constants the engine produces the spec's
concrete values: `price 0 = 0.0001533`, `price 100000000 = 0.0003066`,
`curveProgress 350000000 = 50`, `marketCap 0 = 107310`, and
`proceedsForSale 1000 100000000 = 0.303534`. -/
theorem concrete_scenarios :
    calculateBondingCurvePrice 0 = 1533 / 10000000 ∧
    calculateBondingCurvePrice 100000000 = 3066 / 10000000 ∧
    calculateBondingCurveProgress 350000000 = 50 ∧
    calculateMarketCap 0 = 107310 ∧
    calculateTrustFromSell 1000 100000000 = 303534 / 1000000 := by
  refine ⟨?_, ?_, ?_, ?_, ?_⟩ <;>
    norm_num [calculateBondingCurvePrice, calculateBondingCurveProgress, calculateMarketCap,
      calculateTrustFromSell, BONDING_CURVE_CONFIG]

/-- Claim C10: the two conversions are exact inverses at a fixed supply —
`calculateTrustFromTokens (calculateTokensFromTrust p s) s = p` — because
both divide and multiply by the same strictly positive spot price. -/
theorem trust_tokens_roundtrip (p s : ℚ) :
    0 < calculateBondingCurvePrice s ∧
    calculateTrustFromTokens (calculateTokensFromTrust p s) s = p := by
  have hp := calculateBondingCurvePrice_pos s
  refine ⟨hp, ?_⟩
  simp only [calculateTrustFromTokens, calculateTokensFromTrust]
  exact div_mul_cancel₀ p (ne_of_gt hp)
